import Mathlib

/-!
Verification of the LineageOS recovery installer and volume manager core.

This file gives a shallow embedding, in Lean 4, of the routines of
`install/install.cpp`, `volume_manager/Disk.cpp`,
`volume_manager/VolumeBase.cpp` and `volume_manager/Utils.cpp` that the
stated properties are about, and proves or refutes each property.

External effects (syscalls, property reads, child processes, UI prompts)
are modelled as explicit environment records whose fields record the
outcome each external call would produce; the embedded functions are then
pure functions of the environment, mirroring the C++ control flow
line by line.
-/

namespace Recovery

/-! ## String utilities modelling android::base helpers

The C++ code uses `android::base::Trim`, `Split`, `Tokenize` and
`ParseInt`.  They are modelled here on `List Char`, with `String`
wrappers.  `Split(s, delims)` splits on every character contained in
`delims`, keeping empty fields (the result is never the empty list);
`Tokenize` additionally drops empty fields; `Trim` strips leading and
trailing ASCII whitespace.
-/

def isSpaceChar (c : Char) : Bool :=
  c = ' ' || c = '\t' || c = '\n' || c = '\x0b' || c = '\x0c' || c = '\r'

def trimChars (cs : List Char) : List Char :=
  ((cs.dropWhile isSpaceChar).reverse.dropWhile isSpaceChar).reverse

def strTrim (s : String) : String :=
  ⟨trimChars s.data⟩

def splitAnyChar (delims : List Char) : List Char → List (List Char)
  | [] => [[]]
  | c :: rest =>
    match splitAnyChar delims rest with
    | [] => [[]]
    | h :: t => if delims.contains c then [] :: h :: t else (c :: h) :: t

def strSplitAny (delims : String) (s : String) : List String :=
  (splitAnyChar delims.data s.data).map (fun cs => ⟨cs⟩)

def strTokenize (delims : String) (s : String) : List String :=
  (strSplitAny delims s).filter (fun t => t ≠ "")

/-- Decimal/hex integer parsing, modelled from `android::base::ParseInt`
for `int64_t` (external library `android-base/parseint.h`): leading
whitespace is consumed by `strtoll`, an optional sign follows, a `0x`
prefix selects base 16, the whole remainder must be digits of the base,
and the value must fit in a signed 64-bit integer. -/
def parseDigits (base : Nat) (digits : List Char) : Option Nat :=
  digits.foldl
    (fun acc c =>
      match acc, hexDigitVal c with
      | some n, some d => if d < base then some (n * base + d) else none
      | _, _ => none)
    (some 0)
where
  hexDigitVal (c : Char) : Option Nat :=
    if '0' ≤ c ∧ c ≤ '9' then some (c.toNat - '0'.toNat)
    else if 'a' ≤ c ∧ c ≤ 'f' then some (c.toNat - 'a'.toNat + 10)
    else if 'A' ≤ c ∧ c ≤ 'F' then some (c.toNat - 'A'.toNat + 10)
    else none

def parseInt64Chars (cs : List Char) : Option Int :=
  let cs := cs.dropWhile isSpaceChar
  let (neg, cs) :=
    match cs with
    | '-' :: rest => (true, rest)
    | '+' :: rest => (false, rest)
    | _ => (false, cs)
  let (base, cs) :=
    match cs with
    | '0' :: 'x' :: rest => (16, rest)
    | '0' :: 'X' :: rest => (16, rest)
    | _ => (10, cs)
  match cs with
  | [] => none
  | _ =>
    match parseDigits base cs with
    | none => none
    | some n =>
      let v : Int := if neg then -(n : Int) else (n : Int)
      if -(2 ^ 63 : Int) ≤ v ∧ v ≤ 2 ^ 63 - 1 then some v else none

def parseInt64 (s : String) : Option Int :=
  parseInt64Chars s.data

/-- Hex prefix parsing as done by `strtol(s, nullptr, 16)` on the MBR
partition-type strings produced by sgdisk: parse the longest leading run
of hexadecimal digits (after an optional `0x`), yielding 0 when there is
none.  Whitespace/sign handling is irrelevant for sgdisk type strings and
is modelled for leading whitespace only. -/
def strtolHex (s : String) : Nat :=
  let cs := s.data.dropWhile isSpaceChar
  let cs :=
    match cs with
    | '0' :: 'x' :: rest => rest
    | '0' :: 'X' :: rest => rest
    | _ => cs
  ((parseDigits 16 (cs.takeWhile fun c => (parseDigits.hexDigitVal c).isSome)).getD 0)

/-! ## Package metadata (`install/install.cpp`, `ReadMetadataFromPackage`)

`std::map::emplace` inserts a key/value pair only when the key is not
already present; lookups on the map are modelled by association-list
lookup, for which insertion order is irrelevant.
-/

abbrev Metadata := List (String × String)

/-- Lookup helper modelled from `get_value` in install.cpp: the empty
string when the key is absent. -/
def get_value (m : Metadata) (k : String) : String :=
  (m.lookup k).getD ""

/-- Map insertion modelled from `std::map::emplace`: no effect when the
key is already present. -/
def metadataEmplace (m : Metadata) (k v : String) : Metadata :=
  match m.lookup k with
  | some _ => m
  | none => m ++ [(k, v)]

/-- Split a manifest line at its first `=`, as `line.find('=')` followed
by `substr(0, eq)` / `substr(eq + 1)` does; `none` when the line has no
`=` character. -/
def breakAtEq : List Char → Option (List Char × List Char)
  | [] => none
  | c :: rest =>
    if c = '=' then some ([], rest)
    else (breakAtEq rest).map (fun p => (c :: p.1, p.2))

def parseMetadataLine (m : Metadata) (line : String) : Metadata :=
  match breakAtEq line.data with
  | none => m
  | some (k, v) => metadataEmplace m (strTrim ⟨k⟩) (strTrim ⟨v⟩)

def parseMetadataLines (lines : List String) : Metadata :=
  lines.foldl parseMetadataLine []

/-- Manifest parsing modelled from `ReadMetadataFromPackage`
(install.cpp, lines 89-116): split the extracted
`META-INF/com/android/metadata` text on newlines, and for every line
containing `=`, emplace the trimmed key and trimmed value. -/
def ReadMetadataFromPackage (content : String) : Metadata :=
  parseMetadataLines (strSplitAny "\n" content)

/-! ## Device properties and metadata checks (`install/install.cpp`) -/

/-- Device-side values read through `android::base::GetProperty` /
`GetIntProperty` / `GetBoolProperty`, plus the outcomes of the two
interactive prompts (`RecoveryUI::IsTextVisible`,
`ask_to_continue_downgrade`).  `buildTimestamp` is the value of
`ro.build.date.utc` as read by `GetIntProperty` (whose default is
`INT64_MAX`). -/
structure DeviceEnv where
  devicePreBuild : String
  deviceFingerprint : String
  buildTimestamp : Int
  buildType : String
  buildTags : String
  productDevice : String
  serialNo : String
  textVisible : Bool
  confirmDowngrade : Bool
  deriving Repr, DecidableEq

inductive OtaType
  | AB
  | BLOCK
  | BRICK
  deriving Repr, DecidableEq

def OtaTypeToString : OtaType → String
  | OtaType.AB => "AB"
  | OtaType.BLOCK => "BLOCK"
  | OtaType.BRICK => "BRICK"

/-- List-membership test modelled from `isInStringList` (install.cpp,
lines 836-845). -/
def isInStringList (target_token str_list deliminator : String) : Bool :=
  if target_token.data.length > str_list.data.length then false
  else if target_token.data.length = str_list.data.length ∨ deliminator.data.length = 0 then
    target_token = str_list
  else (strSplitAny deliminator str_list).contains target_token

/-- The `undeclared_downgrade` local of `CheckAbSpecificMetadata`
(install.cpp, lines 178-198): true when the package's `post-timestamp`
is absent, unparseable or older than the device build timestamp and the
package either lacks `ota-downgrade=yes` or, with it, lacks a
`pre-build` fingerprint. -/
def undeclaredDowngrade (env : DeviceEnv) (metadata : Metadata) : Bool :=
  if get_value metadata "post-timestamp" = "" ∨
      parseInt64 (get_value metadata "post-timestamp") = none ∨
      (parseInt64 (get_value metadata "post-timestamp")).getD 0 < env.buildTimestamp then
    if get_value metadata "ota-downgrade" ≠ "yes" then true
    else if get_value metadata "pre-build" = "" then true
    else false
  else false

/-- Metadata check modelled from `CheckAbSpecificMetadata` (install.cpp,
lines 157-217): source-build / fingerprint match, the downgrade check on
`post-timestamp` with the `ota-downgrade=yes` + `pre-build` escape
hatch, the user-build tag check, and the interactive downgrade
confirmation.  The source locals `pkg_pre_build`,
`pkg_pre_build_fingerprint`, `build_fingerprint` and
`undeclared_downgrade` are inlined (the last as `undeclaredDowngrade`
above). -/
def CheckAbSpecificMetadata (env : DeviceEnv) (metadata : Metadata) : Bool :=
  if get_value metadata "pre-build-incremental" ≠ "" ∧
      get_value metadata "pre-build-incremental" ≠ env.devicePreBuild then false
  else if get_value metadata "pre-build" ≠ "" ∧
      ¬ isInStringList env.deviceFingerprint (get_value metadata "pre-build") "|" then false
  else if strTokenize "/" (get_value metadata "post-build") ≠ [] ∧ env.buildType = "user" ∧
      env.buildTags ≠ (strTokenize "/" (get_value metadata "post-build")).getLastD "" then false
  else if undeclaredDowngrade env metadata ∧ ¬ (env.textVisible ∧ env.confirmDowngrade) then
    false
  else true

/-- Metadata check modelled from `CheckPackageMetadata` (install.cpp,
lines 219-281): ota-type match, `pre-device` list membership, serial
number list check with the brick-package build-tag escape, then the A/B
specific checks. -/
def CheckPackageMetadata (env : DeviceEnv) (metadata : Metadata) (ota_type : OtaType) : Bool :=
  let package_ota_type := get_value metadata "ota-type"
  let expected_ota_type := OtaTypeToString ota_type
  if ota_type ≠ OtaType.AB ∧ ota_type ≠ OtaType.BRICK then true
  else if package_ota_type ≠ expected_ota_type then false
  else
    let pkg_device := get_value metadata "pre-device"
    if pkg_device = "" ∨ ¬ isInStringList env.productDevice pkg_device "|:," then false
    else
      let pkg_serial_no := get_value metadata "serialno"
      if pkg_serial_no ≠ "" ∧
          ¬ (strSplitAny "|" pkg_serial_no).any (fun number => env.serialNo = strTrim number) then
        false
      else if pkg_serial_no = "" ∧ ota_type = OtaType.BRICK ∧ env.buildTags = "" then false
      else if pkg_serial_no = "" ∧ ota_type = OtaType.BRICK ∧ env.buildTags = "release-keys" then
        false
      else if ota_type = OtaType.AB then CheckAbSpecificMetadata env metadata
      else true

/-! ## TryUpdateBinary (`install/install.cpp`, lines 399-641)

The function is embedded as a pure function of an environment recording
the outcome of every external interaction, of the `retry_count` argument
and of the process-wide `ab_package_installed` flag (a C++ function-local
static, threaded through explicitly).  `reboot_to_recovery()` and failed
`CHECK`s / `LOG(FATAL)` never return; they are modelled as distinct
terminal outcomes.
-/

inductive InstallResult
  | INSTALL_SUCCESS
  | INSTALL_ERROR
  | INSTALL_CORRUPT
  | INSTALL_RETRY
  | INSTALL_NONE
  deriving Repr, DecidableEq

inductive Outcome
  | normal (r : InstallResult)
  | reboot
  | aborted
  deriving Repr, DecidableEq

inductive PackageType
  | kFile
  | kMemory
  deriving Repr, DecidableEq

inductive ChildStatus
  | exited (code : Nat)
  | signaled (sig : Nat)
  | invalid
  deriving Repr, DecidableEq

/-- Error-code constants modelled from `otautil/error_code.h` (not in
this tree): `kZipVerificationFailure = 21`, `kMapFileFailure = 24`,
`kForkUpdateBinaryFailure = 25`, `kUpdateBinaryCommandFailure = 26`. -/
def kZipVerificationFailure : Nat := 21

def kMapFileFailure : Nat := 24

def kForkUpdateBinaryFailure : Nat := 25

def kUpdateBinaryCommandFailure : Nat := 26

/-- Size bound `MEMORY_PACKAGE_LIMIT` (install.cpp, line 83). -/
def MEMORY_PACKAGE_LIMIT : Nat := 1024 * 1024

/-- Environment of one `TryUpdateBinary` run. `metadataRead` is the
result of `ReadMetadataFromPackage`: `none` when the manifest entry is
missing or fails to extract (the map is then left empty).  `childLines`
are the lines delivered by `fgets` from the updater's control pipe, in
order; `childStatus` is the `waitpid` status classification. -/
structure TryEnv where
  metadataRead : Option Metadata
  packageType : PackageType
  packageSize : Nat
  readFullyOk : Bool
  wipeAbMemoryOk : Bool
  wipeAbDirectOk : Bool
  deviceSupportsAb : Bool
  deviceSupportsVirtualAb : Bool
  violatesSPL : Bool
  askToAbReboot : Bool
  device : DeviceEnv
  logicalPartitionsMapped : Bool
  pipeOk : Bool
  setUpAbOk : Bool
  setUpNonAbOk : Bool
  forkOk : Bool
  childLines : List String
  childStatus : ChildStatus
  isSideloadAutoReboot : Bool
  deriving Repr, DecidableEq

structure TryResult where
  outcome : Outcome
  abFlagAfter : Bool
  forked : Bool
  wipeCache : Bool
  logs : List String
  deriving Repr, DecidableEq

/-- Log lines modelled from `ReadSourceTargetBuild` (install.cpp, lines
138-152). -/
def ReadSourceTargetBuild (metadata : Metadata) : List String :=
  (let source_build := get_value metadata "pre-build-incremental"
   if source_build ≠ "" then ["source_build: " ++ source_build] else []) ++
  (let target_build := get_value metadata "post-build-incremental"
   if target_build ≠ "" then ["target_build: " ++ target_build] else [])

/-- Command extraction from one control-pipe line: the command is the
text before the first space or newline (`line.find_first_of(" \n")`,
`substr(0, space)`), and the arguments are the trimmed remainder. -/
def lineCommand (line : String) : String :=
  ⟨line.data.takeWhile (fun c => c ≠ ' ' ∧ c ≠ '\n')⟩

def lineArgs (line : String) : String :=
  strTrim ⟨line.data.dropWhile (fun c => c ≠ ' ' ∧ c ≠ '\n')⟩

/-- State threaded through the control-protocol read loop: the
`wipe_cache` flag, the `retry_update` flag, and the lines appended to
`log_buffer` by `log` commands. -/
structure ProtocolState where
  wipeCache : Bool
  retryUpdate : Bool
  childLogs : List String
  deriving Repr, DecidableEq

/-- One iteration of the updater-to-recovery protocol loop (install.cpp,
lines 557-608).  `progress`, `set_progress`, `ui_print`, `clear_display`
and `enable_reboot` only touch the UI; unknown commands are logged and
ignored; neither changes the loop state. -/
def protocolStep (st : ProtocolState) (line : String) : ProtocolState :=
  if lineCommand line = "" then st
  else if lineCommand line = "progress" then st
  else if lineCommand line = "set_progress" then st
  else if lineCommand line = "ui_print" then st
  else if lineCommand line = "wipe_cache" then { st with wipeCache := true }
  else if lineCommand line = "clear_display" then st
  else if lineCommand line = "enable_reboot" then st
  else if lineCommand line = "retry_update" then { st with retryUpdate := true }
  else if lineCommand line = "log" then
    if lineArgs line ≠ "" then { st with childLogs := st.childLogs ++ [lineArgs line] }
    else st
  else st

def runProtocol (lines : List String) : ProtocolState :=
  lines.foldl protocolStep ⟨false, false, []⟩

def errorLog (code : Nat) : String :=
  "error: " ++ toString code

/-- Metadata map of a `TryUpdateBinary` run: the local `metadata`
variable (empty when `ReadMetadataFromPackage` failed). -/
def tryMetadata (env : TryEnv) : Metadata :=
  env.metadataRead.getD []

/-- The local `package_is_ab` of `TryUpdateBinary` (install.cpp, line
408): metadata was read and declares `ota-type=AB`. -/
def packageIsAb (env : TryEnv) : Prop :=
  env.metadataRead.isSome ∧
    get_value (tryMetadata env) "ota-type" = OtaTypeToString OtaType.AB

instance packageIsAb.instDecidable (env : TryEnv) : Decidable (packageIsAb env) := by
  unfold packageIsAb
  infer_instance

/-- The local `package_is_brick` of `TryUpdateBinary` (install.cpp, line
409): the metadata declares `ota-type=BRICK`. -/
def packageIsBrick (env : TryEnv) : Prop :=
  get_value (tryMetadata env) "ota-type" = OtaTypeToString OtaType.BRICK

instance packageIsBrick.instDecidable (env : TryEnv) : Decidable (packageIsBrick env) := by
  unfold packageIsBrick
  infer_instance

/-- The local `ab_device_supports_nonab` (install.cpp, line 423) is the
literal `true`, so `device_only_supports_ab` (line 424) is always
false. -/
def ab_device_supports_nonab : Bool :=
  true

def device_only_supports_ab (env : TryEnv) : Prop :=
  env.deviceSupportsAb ∧ ¬ ab_device_supports_nonab

instance device_only_supports_ab.instDecidable (env : TryEnv) :
    Decidable (device_only_supports_ab env) := by
  unfold device_only_supports_ab
  infer_instance

/-- Embedding of `TryUpdateBinary` (install.cpp, lines 399-641).
`abFlag` is the value of the static `ab_package_installed` on entry;
`TryResult.abFlagAfter` its value when the call ends.  `forked` records
whether the updater child was forked.  The source locals `metadata`,
`package_is_ab`, `package_is_brick`, `device_only_supports_ab` and `st`
(the protocol-loop state) appear as the top-level definitions
`tryMetadata`, `packageIsAb`, `packageIsBrick`,
`device_only_supports_ab` and `runProtocol env.childLines`. -/
def TryUpdateBinary (env : TryEnv) (_retryCount : Nat) (abFlag : Bool) : TryResult :=
  if packageIsBrick env then
    if env.packageType = PackageType.kFile ∧ env.packageSize < MEMORY_PACKAGE_LIMIT ∧
        env.readFullyOk then
      ⟨Outcome.normal (if env.wipeAbMemoryOk then InstallResult.INSTALL_SUCCESS
                       else InstallResult.INSTALL_ERROR), abFlag, false, false, []⟩
    else
      ⟨Outcome.normal (if env.wipeAbDirectOk then InstallResult.INSTALL_SUCCESS
                       else InstallResult.INSTALL_ERROR), abFlag, false, false, []⟩
  else if env.violatesSPL then
    ⟨Outcome.normal InstallResult.INSTALL_ERROR, abFlag, false, false, []⟩
  else if abFlag then
    if env.askToAbReboot then ⟨Outcome.reboot, abFlag, false, false, []⟩
    else ⟨Outcome.normal InstallResult.INSTALL_ERROR, abFlag, false, false, []⟩
  else if packageIsAb env ∧ env.packageType ≠ PackageType.kFile then
    ⟨Outcome.aborted, abFlag, false, false, []⟩
  else if (packageIsAb env ∨ device_only_supports_ab env) ∧
      ¬ CheckPackageMetadata env.device (tryMetadata env) OtaType.AB then
    ⟨Outcome.normal InstallResult.INSTALL_ERROR, abFlag, false, false,
      [errorLog kUpdateBinaryCommandFailure]⟩
  else if packageIsAb env ∧ env.deviceSupportsVirtualAb ∧ env.logicalPartitionsMapped then
    ⟨Outcome.normal InstallResult.INSTALL_ERROR, abFlag, false, false, []⟩
  else if ¬ env.pipeOk then
    ⟨Outcome.normal InstallResult.INSTALL_CORRUPT, abFlag, false, false,
      ReadSourceTargetBuild (tryMetadata env)⟩
  else if ¬ (if packageIsAb env then env.setUpAbOk else env.setUpNonAbOk) then
    ⟨Outcome.normal InstallResult.INSTALL_CORRUPT, abFlag, false, false,
      ReadSourceTargetBuild (tryMetadata env) ++ [errorLog kUpdateBinaryCommandFailure]⟩
  else if ¬ env.forkOk then
    ⟨Outcome.normal InstallResult.INSTALL_ERROR, abFlag, false, false,
      ReadSourceTargetBuild (tryMetadata env) ++ [errorLog kForkUpdateBinaryFailure]⟩
  else if (runProtocol env.childLines).retryUpdate then
    ⟨Outcome.normal InstallResult.INSTALL_RETRY, abFlag, true,
      (runProtocol env.childLines).wipeCache,
      ReadSourceTargetBuild (tryMetadata env) ++ (runProtocol env.childLines).childLogs⟩
  else
    match env.childStatus with
    | ChildStatus.exited code =>
      if code ≠ 0 then
        ⟨Outcome.normal InstallResult.INSTALL_ERROR, abFlag, true,
          (runProtocol env.childLines).wipeCache,
          ReadSourceTargetBuild (tryMetadata env) ++ (runProtocol env.childLines).childLogs⟩
      else if packageIsAb env then
        if ¬ env.isSideloadAutoReboot ∧ env.askToAbReboot then
          ⟨Outcome.reboot, true, true, (runProtocol env.childLines).wipeCache,
            ReadSourceTargetBuild (tryMetadata env) ++ (runProtocol env.childLines).childLogs⟩
        else
          ⟨Outcome.normal InstallResult.INSTALL_SUCCESS, true, true,
            (runProtocol env.childLines).wipeCache,
            ReadSourceTargetBuild (tryMetadata env) ++ (runProtocol env.childLines).childLogs⟩
      else
        ⟨Outcome.normal InstallResult.INSTALL_SUCCESS, abFlag, true,
          (runProtocol env.childLines).wipeCache,
          ReadSourceTargetBuild (tryMetadata env) ++ (runProtocol env.childLines).childLogs⟩
    | ChildStatus.signaled _ =>
      ⟨Outcome.normal InstallResult.INSTALL_ERROR, abFlag, true,
        (runProtocol env.childLines).wipeCache,
        ReadSourceTargetBuild (tryMetadata env) ++ (runProtocol env.childLines).childLogs⟩
    | ChildStatus.invalid =>
      ⟨Outcome.aborted, abFlag, true, (runProtocol env.childLines).wipeCache,
        ReadSourceTargetBuild (tryMetadata env) ++ (runProtocol env.childLines).childLogs⟩

/-! ## InstallPackage (`install/install.cpp`, lines 643-761) -/

def startsWithChars : List Char → List Char → Bool
  | [], _ => true
  | _ :: _, [] => false
  | p :: ps, c :: cs => p = c && startsWithChars ps cs

/-- Line joining modelled from `android::base::Join(vec, "\n")`. -/
def joinNL : List String → String
  | [] => ""
  | [s] => s
  | s :: rest => s ++ "\n" ++ joinNL rest

/-- Environment of one `InstallPackage` run; `tryEnv` carries the
environment of the inner `TryUpdateBinary` call.  `uncryptContent` is
the text of `/cache/recovery/uncrypt_status` (`none` when the read
fails); `maxTempObserved` is the value of the `max_temperature` in-out
variable after the temperature logger thread is joined (it starts at
`startTemperature`). -/
structure InstallEnv where
  hasPackage : Bool
  setupMountsOk : Bool
  verifyOk : Bool
  confirmUnverified : Bool
  tryEnv : TryEnv
  retryCount : Nat
  packageId : String
  timeTotal : Nat
  hasCache : Bool
  uncryptMountOk : Bool
  uncryptContent : Option String
  startTemperature : Int
  maxTempObserved : Int
  endTemperature : Int
  shouldWipeCache : Bool
  wipeCacheOk : Bool
  deriving Repr, DecidableEq

/-- Embedding of `VerifyAndInstallPackage` (install.cpp, lines 643-672):
on verification failure push the error line and, unless the user
interactively continues, classify as `INSTALL_CORRUPT`; otherwise run
`TryUpdateBinary`.  Returns (outcome, flag after, wipe-cache request,
log-buffer lines). -/
def VerifyAndInstallPackage (env : InstallEnv) (abFlag : Bool) :
    Outcome × Bool × Bool × List String :=
  let verLogs := if ¬ env.verifyOk then [errorLog kZipVerificationFailure] else []
  if ¬ env.verifyOk ∧ ¬ (env.tryEnv.device.textVisible ∧ env.confirmUnverified) then
    (Outcome.normal InstallResult.INSTALL_CORRUPT, abFlag, false, verLogs)
  else
    let r := TryUpdateBinary env.tryEnv env.retryCount abFlag
    (r.outcome, r.abFlagAfter, r.wipeCache, verLogs ++ r.logs)

/-- Uncrypt-status log line (install.cpp, lines 706-722). -/
def uncryptLogLines (env : InstallEnv) : List String :=
  if env.hasCache then
    if ¬ env.uncryptMountOk then []
    else
      match env.uncryptContent with
      | none => []
      | some s => if startsWithChars "uncrypt_".data s.data then [strTrim s] else []
  else []

/-- Temperature log lines (install.cpp, lines 734-742). -/
def temperatureLogLines (startT endT maxT : Int) : List String :=
  (if startT > 0 then ["temperature_start: " ++ toString startT] else []) ++
  (if endT > 0 then ["temperature_end: " ++ toString endT] else []) ++
  (if maxT > 0 then ["temperature_max: " ++ toString maxT] else [])

/-- Result of one `InstallPackage` run.  `result` is the returned
`InstallResult` (`none` when the inner updater path rebooted or
aborted, in which case the call never returns and no log is written);
`resultLogged` is the value of the local `result` variable at the time
`log_content` was assembled and persisted, i.e. before the post-install
cache wipe can downgrade it; `logContent` is the text written to the
install-log file. -/
structure InstallOut where
  result : Option InstallResult
  resultLogged : Option InstallResult
  logContent : Option String
  abFlagAfter : Bool
  deriving Repr, DecidableEq

/-- The log-file header (install.cpp, lines 724-730): package id,
"1"/"0" success flag reflecting the `result` value at assembly time,
total time and retry count. -/
def installLogHeader (env : InstallEnv) (result : InstallResult) : List String :=
  [env.packageId,
   if result = InstallResult.INSTALL_SUCCESS then "1" else "0",
   "time_total: " ++ toString env.timeTotal,
   "retry: " ++ toString env.retryCount]

/-- The text written to the install-log file (install.cpp, lines
744-749): header lines, then the log buffer (updater logs, uncrypt
status, temperatures), newline-joined with a trailing newline. -/
def installLogContent (env : InstallEnv) (result : InstallResult)
    (logBuffer0 : List String) : String :=
  joinNL (installLogHeader env result) ++ "\n" ++
    joinNL (logBuffer0 ++ uncryptLogLines env ++
      temperatureLogLines env.startTemperature env.endTemperature
        (max env.endTemperature env.maxTempObserved)) ++ "\n"

/-- The result actually returned (install.cpp, lines 754-758): a
successful install is downgraded to `INSTALL_ERROR` when a requested
cache wipe fails — after the log file has been written. -/
def installFinalResult (env : InstallEnv) (result : InstallResult)
    (updaterWipeCache : Bool) : InstallResult :=
  if result = InstallResult.INSTALL_SUCCESS ∧ (env.shouldWipeCache ∨ updaterWipeCache) ∧
      ¬ env.wipeCacheOk then
    InstallResult.INSTALL_ERROR
  else result

/-- The part of `InstallPackage` (install.cpp, lines 689-700) that
computes the install result, the updater's cache-wipe request and the
log buffer: null package, mount setup, then
`VerifyAndInstallPackage`.  `none` when the inner updater path rebooted
or aborted (the call never returns). -/
def installCore (env : InstallEnv) (abFlag : Bool) :
    Option (InstallResult × Bool × List String × Bool) :=
  if ¬ env.hasPackage then
    some (InstallResult.INSTALL_CORRUPT, false, [errorLog kMapFileFailure], abFlag)
  else if ¬ env.setupMountsOk then some (InstallResult.INSTALL_ERROR, false, [], abFlag)
  else
    match VerifyAndInstallPackage env abFlag with
    | (Outcome.normal r, flagAfter, wc, logs) => some (r, wc, logs, flagAfter)
    | (Outcome.reboot, _, _, _) => none
    | (Outcome.aborted, _, _, _) => none

/-- Embedding of `InstallPackage` (install.cpp, lines 674-761). -/
def InstallPackage (env : InstallEnv) (abFlag : Bool) : InstallOut :=
  match installCore env abFlag with
  | none => ⟨none, none, none, abFlag⟩
  | some (result, updaterWipeCache, logBuffer0, flagAfter) =>
    ⟨some (installFinalResult env result updaterWipeCache), some result,
      some (installLogContent env result logBuffer0), flagAfter⟩

/-! ## VolumeBase state machine (`volume_manager/VolumeBase.cpp`)

Android `status_t` constants (`utils/Errors.h`): `OK = 0`,
`BAD_VALUE = -EINVAL = -22`, `NO_INIT = -ENODEV = -19`.  Every
`setState` emits a `VolumeStateChanged` notification; the emitted state
sequence is recorded alongside the new object state.
-/

def statusOK : Int := 0

def statusBAD_VALUE : Int := -22

def statusNO_INIT : Int := -19

inductive VolState
  | kUnmounted
  | kChecking
  | kMounted
  | kMountedReadOnly
  | kEjecting
  | kUnmountable
  | kRemoved
  | kBadRemoval
  deriving Repr, DecidableEq

structure Vol where
  created : Bool
  state : VolState
  deriving Repr, DecidableEq

/-- Result of a `VolumeBase` operation: the object afterwards, the
returned `status_t`, and the sequence of states passed to `setState`
(each of which is notified to the watcher). -/
structure VolStep where
  vol : Vol
  status : Int
  notified : List VolState
  deriving Repr, DecidableEq

/-- Embedding of `VolumeBase::mount` (VolumeBase.cpp, lines 163-178);
`doMountRes` is the subtype's `doMount()` result. -/
def VolumeBase.mount (v : Vol) (doMountRes : Int) : VolStep :=
  if v.state ≠ VolState.kUnmounted ∧ v.state ≠ VolState.kUnmountable then
    ⟨v, -22, []⟩
  else if doMountRes = statusOK then
    ⟨{ v with state := VolState.kMounted }, doMountRes,
      [VolState.kChecking, VolState.kMounted]⟩
  else
    ⟨{ v with state := VolState.kUnmountable }, doMountRes,
      [VolState.kChecking, VolState.kUnmountable]⟩

/-- Embedding of `VolumeBase::unmount` (VolumeBase.cpp, lines 180-186):
no state precondition, `setState(kEjecting)`, call the subtype
`doUnmount(detach)` (its result is `doUnmountRes`), `setState
(kUnmounted)`, and return the subtype result. -/
def VolumeBase.unmount (v : Vol) (_detach : Bool) (doUnmountRes : Int) : VolStep :=
  let v1 : Vol := { v with state := VolState.kEjecting }
  let res := doUnmountRes
  let v2 : Vol := { v1 with state := VolState.kUnmounted }
  ⟨v2, res, [VolState.kEjecting, VolState.kUnmounted]⟩

/-- Subtype `doUnmount` results: `PublicVolume::doUnmount`
(PublicVolume.cpp, lines 146-158), `EmulatedVolume::doUnmount`
(EmulatedVolume.cpp, lines 85-93) and `RootVolume::doUnmount`
(RootVolume.cpp, lines 38-40) all ignore the results of
`KillProcessesUsingPath` / `ForceUnmount` / `rmdir` and return `OK`
unconditionally. -/
def PublicVolume.doUnmount : Int := statusOK

def EmulatedVolume.doUnmount : Int := statusOK

def RootVolume.doUnmount : Int := statusOK

/-- Embedding of `VolumeBase::destroy` (VolumeBase.cpp, lines 141-157);
`doDestroyRes` is the subtype `doDestroy()` result, `doUnmountRes` the
subtype `doUnmount()` result used by the forced unmount of a mounted
volume. -/
def VolumeBase.destroy (v : Vol) (doUnmountRes doDestroyRes : Int) : VolStep :=
  if ¬ v.created then ⟨v, statusNO_INIT, []⟩
  else if v.state = VolState.kMounted then
    let u := VolumeBase.unmount v true doUnmountRes
    ⟨{ created := false, state := VolState.kBadRemoval }, doDestroyRes,
      u.notified ++ [VolState.kBadRemoval]⟩
  else
    ⟨{ created := false, state := VolState.kRemoved }, doDestroyRes, [VolState.kRemoved]⟩

/-! ## Disk partition scanning (`volume_manager/Disk.cpp`, lines 279-359)

`readPartitions` is embedded as a pure function of an environment
recording the `getMaxMinors()` return value, the `mSkipChange` member,
the outcome of `sgdisk_read` and the outcome of
`ReadMetadataUntrusted` on the whole-disk device node.  The
`VolumeManager::notifyEvent` calls and volume creations it performs are
recorded as an event trace.  Linux `ENOTSUP = 95`.
-/

inductive TableType
  | unknown
  | mbr
  | gpt
  deriving Repr, DecidableEq

/-- One `sgdisk_partition` entry: partition number, MBR type string
(hex), GPT type GUID string. -/
structure SgPart where
  num : Int
  ptype : String
  guid : String
  deriving Repr, DecidableEq

inductive ScanEvent
  | volumesDestroyed
  | volumeCreated (major minor : Nat)
  | probeWholeDisk
  | diskScanned
  deriving Repr, DecidableEq

/-- Outcome of `sgdisk_read`: a nonzero status, or a parsed table type
with the partition entries. -/
inductive SgdiskResult
  | failed (res : Int)
  | parsed (table : TableType) (parts : List SgPart)
  deriving Repr, DecidableEq

structure DiskEnv where
  getMaxMinorsRet : Int
  skipChange : Bool
  sgdisk : SgdiskResult
  deviceMajor : Nat
  deviceMinor : Nat
  readMetadataUntrustedOk : Bool
  deriving Repr, DecidableEq

structure ScanOut where
  status : Int
  events : List ScanEvent
  skipChangeAfter : Bool
  deriving Repr, DecidableEq

/-- Conversion of the `int` returned by `getMaxMinors()` to the `int8_t`
local `maxMinors` (two's-complement truncation). -/
def toInt8 (n : Int) : Int :=
  ((n + 128) % 256) - 128

def kGptBasicData : String := "EBD0A0A2-B9E5-4433-87C0-68B6B72699C7"

def kGptLinuxFilesystem : String := "0FC63DAF-8483-4772-8E79-3D69D8477DE4"

/-- Case-insensitive string equality modelled from `strcasecmp`. -/
def strCaseEq (a b : String) : Bool :=
  a.data.map Char.toLower = b.data.map Char.toLower

/-- Volume-creation events of one iteration of the per-partition loop
(Disk.cpp, lines 318-342): a partition outside `(0, maxMinors]` is
skipped; an MBR entry creates a volume when its type byte is
FAT16/NTFS-exFAT/FAT32/FAT16-LBA/Linux; a GPT entry when its GUID is
basic-data or Linux-filesystem (case-insensitive); for an Unknown table
the loop creates nothing. -/
def partitionEventsOf (env : DiskEnv) (maxMinors : Int) (table : TableType)
    (part : SgPart) : List ScanEvent :=
  if part.num ≤ 0 ∨ part.num > maxMinors then []
  else
    match table with
    | TableType.mbr =>
      if strtolHex part.ptype = 0x06 ∨ strtolHex part.ptype = 0x07 ∨
          strtolHex part.ptype = 0x0b ∨ strtolHex part.ptype = 0x0c ∨
          strtolHex part.ptype = 0x0e ∨ strtolHex part.ptype = 0x83 then
        [ScanEvent.volumeCreated env.deviceMajor (env.deviceMinor + part.num.toNat)]
      else []
    | TableType.gpt =>
      if strCaseEq part.guid kGptBasicData ∨ strCaseEq part.guid kGptLinuxFilesystem then
        [ScanEvent.volumeCreated env.deviceMajor (env.deviceMinor + part.num.toNat)]
      else []
    | TableType.unknown => []

/-- Events of the whole per-partition loop, in entry order. -/
def partitionLoopEvents (env : DiskEnv) (maxMinors : Int) (table : TableType)
    (parts : List SgPart) : List ScanEvent :=
  (parts.map (partitionEventsOf env maxMinors table)).flatten

/-- The whole-disk fallback (Disk.cpp, lines 344-355): when the table
type is Unknown or `foundParts` is false (no partition entries at all),
probe the whole-disk node with `ReadMetadataUntrusted` and create a
volume covering the whole disk if the probe succeeds. -/
def wholeDiskFallback (env : DiskEnv) (table : TableType) (parts : List SgPart) :
    List ScanEvent :=
  if table = TableType.unknown ∨ ¬ parts.length > 0 then
    ScanEvent.probeWholeDisk ::
      (if env.readMetadataUntrustedOk then
        [ScanEvent.volumeCreated env.deviceMajor env.deviceMinor]
      else [])
  else []

/-- Embedding of `Disk::readPartitions` (Disk.cpp, lines 279-359).  The
source locals `maxMinors` (the `int8_t`-truncated `getMaxMinors()`
result) and `foundParts` (`partitions.size() > 0`) are inlined. -/
def readPartitions (env : DiskEnv) : ScanOut :=
  if toInt8 env.getMaxMinorsRet < 0 then ⟨-95, [], env.skipChange⟩
  else if env.skipChange then ⟨statusOK, [], false⟩
  else
    match env.sgdisk with
    | SgdiskResult.failed res =>
      ⟨res, [ScanEvent.volumesDestroyed, ScanEvent.diskScanned], env.skipChange⟩
    | SgdiskResult.parsed ptblType partitions =>
      ⟨statusOK,
        ScanEvent.volumesDestroyed ::
          (partitionLoopEvents env (toInt8 env.getMaxMinorsRet) ptblType partitions ++
            wholeDiskFallback env ptblType partitions ++ [ScanEvent.diskScanned]),
        env.skipChange⟩

/-! ## Forced unmount (`volume_manager/Utils.cpp`, lines 125-158)

`ForceUnmount` on the non-detach path attempts `umount2` up to four
times with an escalating signal between retries.  `ok k` tells whether
the `k`-th `umount2` attempt succeeds (counting `umount2` returning 0,
or failing with `EINVAL`/`ENOENT`, as success, exactly as the source's
`|| errno == EINVAL || errno == ENOENT` does).  The emitted action
trace records each attempt, each `sleep(1)` and each
`killProcessesWithOpenFiles` signal.
-/

inductive Sig
  | sigINT
  | sigTERM
  | sigKILL
  deriving Repr, DecidableEq

inductive FuEvent
  | umountAttempt
  | sleepOne
  | signalSent (s : Sig)
  deriving Repr, DecidableEq

/-- Embedding of the non-detach path of `ForceUnmount` (Utils.cpp, lines
134-157).  Returns whether the function returns `OK`, together with the
trace of actions performed, in order. -/
def ForceUnmountNonDetach (ok : Nat → Bool) : Bool × List FuEvent :=
  if ok 0 then (true, [FuEvent.umountAttempt])
  else
    let t1 := [FuEvent.umountAttempt, FuEvent.sleepOne, FuEvent.signalSent Sig.sigINT,
               FuEvent.sleepOne, FuEvent.umountAttempt]
    if ok 1 then (true, t1)
    else
      let t2 := t1 ++ [FuEvent.signalSent Sig.sigTERM, FuEvent.sleepOne, FuEvent.umountAttempt]
      if ok 2 then (true, t2)
      else
        let t3 := t2 ++ [FuEvent.signalSent Sig.sigKILL, FuEvent.sleepOne, FuEvent.umountAttempt]
        if ok 3 then (true, t3) else (false, t3)

/-- Full escalation ladder: the trace of a run in which every `umount2`
attempt fails. -/
def fuFullLadder : List FuEvent :=
  [FuEvent.umountAttempt, FuEvent.sleepOne, FuEvent.signalSent Sig.sigINT, FuEvent.sleepOne,
   FuEvent.umountAttempt, FuEvent.signalSent Sig.sigTERM, FuEvent.sleepOne,
   FuEvent.umountAttempt, FuEvent.signalSent Sig.sigKILL, FuEvent.sleepOne,
   FuEvent.umountAttempt]

/-! ## Derived definitions and concrete environments used by the theorems -/

/-- The result of the brick-package path of `TryUpdateBinary`
(install.cpp, lines 410-421), a function of the package fields and the
two `WipeAbDevice` outcomes only. -/
def brickResult (env : TryEnv) : InstallResult :=
  if env.packageType = PackageType.kFile ∧ env.packageSize < MEMORY_PACKAGE_LIMIT ∧
      env.readFullyOk then
    if env.wipeAbMemoryOk then InstallResult.INSTALL_SUCCESS else InstallResult.INSTALL_ERROR
  else
    if env.wipeAbDirectOk then InstallResult.INSTALL_SUCCESS else InstallResult.INSTALL_ERROR

/-- Device properties under which the sample A/B package below passes
every metadata check. -/
def sampleDevice : DeviceEnv :=
  { devicePreBuild := ""
    deviceFingerprint := ""
    buildTimestamp := 1
    buildType := ""
    buildTags := ""
    productDevice := "dev"
    serialNo := ""
    textVisible := false
    confirmDowngrade := false }

/-- Parsed metadata of a well-formed A/B package for `sampleDevice`. -/
def sampleAbMetadata : Metadata :=
  [("ota-type", "AB"), ("pre-device", "dev"), ("post-timestamp", "2")]

/-- A `TryUpdateBinary` environment in which an A/B install runs to a
successful completion (child exits 0, no retry request). -/
def abOkEnv : TryEnv :=
  { metadataRead := some sampleAbMetadata
    packageType := PackageType.kFile
    packageSize := 4096
    readFullyOk := true
    wipeAbMemoryOk := true
    wipeAbDirectOk := true
    deviceSupportsAb := true
    deviceSupportsVirtualAb := false
    violatesSPL := false
    askToAbReboot := false
    device := sampleDevice
    logicalPartitionsMapped := false
    pipeOk := true
    setUpAbOk := true
    setUpNonAbOk := true
    forkOk := true
    childLines := []
    childStatus := ChildStatus.exited 0
    isSideloadAutoReboot := true }

/-- A brick-package environment with an SPL violation and a hostile
metadata-check environment, to exhibit the short-circuit. -/
def brickEnv : TryEnv :=
  { abOkEnv with
    metadataRead := some [("ota-type", "BRICK")]
    violatesSPL := true }

/-- An `InstallPackage` environment in which the update itself succeeds,
a cache wipe is requested, and the cache wipe fails. -/
def c7Env : InstallEnv :=
  { hasPackage := true
    setupMountsOk := true
    verifyOk := true
    confirmUnverified := false
    tryEnv := abOkEnv
    retryCount := 0
    packageId := "pkg"
    timeTotal := 0
    hasCache := false
    uncryptMountOk := false
    uncryptContent := none
    startTemperature := 0
    maxTempObserved := 0
    endTemperature := 0
    shouldWipeCache := true
    wipeCacheOk := false }

/-- A disk whose major number `getMaxMinors()` does not recognize
(returning `-ENOTSUP`), with everything else healthy. -/
def c3Env : DiskEnv :=
  { getMaxMinorsRet := -95
    skipChange := false
    sgdisk := SgdiskResult.parsed TableType.unknown []
    deviceMajor := 8
    deviceMinor := 0
    readMetadataUntrustedOk := true }

/-- A disk with a recognized MBR table whose only partition entry has
the extended-partition type byte 0x05 — no entry matches a
filesystem-bearing type, yet the entry list is nonempty. Blind
detection on the whole disk would succeed. -/
def c4Env : DiskEnv :=
  { getMaxMinorsRet := 15
    skipChange := false
    sgdisk := SgdiskResult.parsed TableType.mbr [⟨1, "05", ""⟩]
    deviceMajor := 8
    deviceMinor := 0
    readMetadataUntrustedOk := true }

/-- A disk on which the partition-table read itself fails. -/
def sgdiskFailEnv : DiskEnv :=
  { getMaxMinorsRet := 15
    skipChange := false
    sgdisk := SgdiskResult.failed (-5)
    deviceMajor := 8
    deviceMinor := 0
    readMetadataUntrustedOk := false }

/-- A disk with an unrecognizable (Unknown) partition table and no
entries, whose whole-disk blind detection succeeds. -/
def c3scanOkEnv : DiskEnv :=
  { getMaxMinorsRet := 15
    skipChange := false
    sgdisk := SgdiskResult.parsed TableType.unknown []
    deviceMajor := 8
    deviceMinor := 0
    readMetadataUntrustedOk := true }

/-! ## Theorems -/

/-- C6: `VolumeBase::unmount(detach)` is callable in every state; it
sets state `Ejecting`, calls `doUnmount(detach)`, and unconditionally
ends with state `Unmounted` regardless of `doUnmount`'s result (which it
returns).  In particular, on an already-unmounted volume (whose subtype
`doUnmount` — `PublicVolume`, `EmulatedVolume` or `RootVolume` — always
returns `OK`), `unmount` does not fail and leaves the state
`Unmounted`. -/
theorem C6_unmount_idempotent (v : Vol) (detach : Bool) (dres : Int) :
    (VolumeBase.unmount v detach dres).vol.state = VolState.kUnmounted ∧
    (VolumeBase.unmount v detach dres).status = dres ∧
    (VolumeBase.unmount v detach dres).notified = [VolState.kEjecting, VolState.kUnmounted] ∧
    (v.state = VolState.kUnmounted →
      (VolumeBase.unmount v detach PublicVolume.doUnmount).vol = v ∧
      (VolumeBase.unmount v detach PublicVolume.doUnmount).status = statusOK) := by
  refine ⟨rfl, rfl, rfl, fun h => ?_⟩
  obtain ⟨c, s⟩ := v
  cases h
  exact ⟨rfl, rfl⟩

/-- Closed instantiation of `C6_unmount_idempotent` at an
already-unmounted volume. -/
theorem C6_unmount_idempotent_witness :
    (VolumeBase.unmount ⟨true, VolState.kUnmounted⟩ false PublicVolume.doUnmount).vol =
      (⟨true, VolState.kUnmounted⟩ : Vol) ∧
    (VolumeBase.unmount ⟨true, VolState.kUnmounted⟩ false PublicVolume.doUnmount).status =
      statusOK :=
  (C6_unmount_idempotent ⟨true, VolState.kUnmounted⟩ false 0).2.2.2 rfl

/-- C8: on the non-detach path, `ForceUnmount` performs the attempt
sequence unmount, SIGINT, unmount, SIGTERM, unmount, SIGKILL, unmount
(with sleeps between escalation steps), stops right after the first
successful unmount attempt without sending further signals (its trace
is always a prefix of the full ladder, cut immediately after an
unmount), and succeeds exactly when one of the four attempts
succeeds. -/
theorem C8_force_unmount_escalation (ok : Nat → Bool) :
    (ForceUnmountNonDetach ok).1 = (ok 0 || ok 1 || ok 2 || ok 3) ∧
    (ForceUnmountNonDetach ok).2 =
      (if ok 0 then fuFullLadder.take 1
       else if ok 1 then fuFullLadder.take 5
       else if ok 2 then fuFullLadder.take 8
       else fuFullLadder) ∧
    (∃ n, (ForceUnmountNonDetach ok).2 = fuFullLadder.take n) := by
  by_cases h0 : ok 0 = true <;> by_cases h1 : ok 1 = true <;> by_cases h2 : ok 2 = true <;>
    by_cases h3 : ok 3 = true <;>
    simp only [Bool.not_eq_true] at h0 h1 h2 h3 <;>
    refine ⟨?_, ?_, ?_⟩ <;>
    simp [ForceUnmountNonDetach, fuFullLadder, h0, h1, h2, h3] <;>
    first
    | exact ⟨1, rfl⟩
    | exact ⟨5, rfl⟩
    | exact ⟨8, rfl⟩
    | exact ⟨11, by simp [List.take_of_length_le]⟩

theorem breakAtEq_none (cs : List Char) (h : cs.all (fun c => c ≠ '=')) :
    breakAtEq cs = none := by
  induction cs with
  | nil => rfl
  | cons c rest ih =>
    simp only [List.all_cons, Bool.and_eq_true, decide_eq_true_eq] at h
    simp [breakAtEq, h.1, ih h.2]

theorem lookup_append_some (m1 m2 : Metadata) (k w : String) (h : m1.lookup k = some w) :
    (m1 ++ m2).lookup k = some w := by
  induction m1 with
  | nil => simp [List.lookup] at h
  | cons p t ih =>
    obtain ⟨a, b⟩ := p
    by_cases hk : k = a
    · subst hk
      simpa [List.lookup] using h
    · have hbeq : (k == a) = false := by simpa using hk
      simp only [List.cons_append, List.lookup, hbeq] at h ⊢
      exact ih h

theorem emplace_lookup_preserved (m : Metadata) (k w k' v : String)
    (h : m.lookup k = some w) : (metadataEmplace m k' v).lookup k = some w := by
  unfold metadataEmplace
  cases hl : m.lookup k' with
  | some _ => exact h
  | none => exact lookup_append_some m [(k', v)] k w h

theorem parseMetadataLine_lookup_preserved (m : Metadata) (line : String) (k w : String)
    (h : m.lookup k = some w) : (parseMetadataLine m line).lookup k = some w := by
  unfold parseMetadataLine
  cases hb : breakAtEq line.data with
  | none => exact h
  | some p => exact emplace_lookup_preserved m k w _ _ h

theorem foldl_parse_lookup_preserved (lines : List String) (m : Metadata) (k w : String)
    (h : m.lookup k = some w) : (lines.foldl parseMetadataLine m).lookup k = some w := by
  induction lines generalizing m with
  | nil => exact h
  | cons l rest ih =>
    exact ih (parseMetadataLine m l) (parseMetadataLine_lookup_preserved m l k w h)

/-- C10: `ReadMetadataFromPackage` (a) ignores every manifest line with
no `=` character, (b) inserts, for a line split at its first `=`, the
whitespace-trimmed key and value, and (c) when a key occurs on several
lines keeps the value from the first occurrence — later duplicates are
discarded by `std::map::emplace`, never overwritten. -/
theorem C10_metadata_parsing :
    (∀ (pre post : List String) (line : String), line.data.all (fun c => c ≠ '=') →
      parseMetadataLines (pre ++ line :: post) = parseMetadataLines (pre ++ post)) ∧
    (∀ (m : Metadata) (line : String) (k v : List Char), breakAtEq line.data = some (k, v) →
      parseMetadataLine m line = metadataEmplace m (strTrim ⟨k⟩) (strTrim ⟨v⟩)) ∧
    (∀ (lines : List String) (m : Metadata) (k w : String), m.lookup k = some w →
      (lines.foldl parseMetadataLine m).lookup k = some w) := by
  refine ⟨fun pre post line h => ?_, fun m line k v h => ?_, foldl_parse_lookup_preserved⟩
  · unfold parseMetadataLines
    rw [List.foldl_append, List.foldl_append, List.foldl_cons]
    have : parseMetadataLine (List.foldl parseMetadataLine [] pre) line =
        List.foldl parseMetadataLine [] pre := by
      unfold parseMetadataLine
      rw [breakAtEq_none line.data h]
    rw [this]
  · unfold parseMetadataLine
    rw [h]

/-- Closed instantiation of `C10_metadata_parsing`: a line without `=`
contributes nothing, and a duplicate key keeps its first value. -/
theorem C10_metadata_parsing_witness :
    parseMetadataLines (["k=1"] ++ "line-without-equals" :: ["k=2"]) =
      parseMetadataLines (["k=1"] ++ ["k=2"]) ∧
    (["x=2"].foldl parseMetadataLine [("x", "1")]).lookup "x" = some "1" :=
  ⟨C10_metadata_parsing.1 ["k=1"] ["k=2"] "line-without-equals" (by decide),
   C10_metadata_parsing.2.2 ["x=2"] [("x", "1")] "x" "1" rfl⟩

/-- C9: a package whose metadata declares `ota-type=BRICK` makes
`TryUpdateBinary` return the `WipeAbDevice` outcome immediately: the
result is `brickResult env` — a function of the package fields and wipe
outcomes only — no child is forked, the `ab_package_installed` flag is
left unchanged, and the result is the same for any value of the SPL
downgrade check and of the one-shot flag, so a brick package is never
rejected by the SPL rule nor blocked by a previously applied A/B
update. -/
theorem C9_brick_short_circuit (env : TryEnv) (rc : Nat) (abFlag : Bool)
    (h : packageIsBrick env) :
    TryUpdateBinary env rc abFlag =
      ⟨Outcome.normal (brickResult env), abFlag, false, false, []⟩ ∧
    ∀ (b f : Bool), TryUpdateBinary { env with violatesSPL := b } rc f =
      ⟨Outcome.normal (brickResult env), f, false, false, []⟩ := by
  constructor
  · unfold TryUpdateBinary brickResult
    rw [if_pos h]
    repeat' split
    all_goals rfl
  · intro b f
    unfold TryUpdateBinary brickResult
    rw [if_pos (show packageIsBrick { env with violatesSPL := b } from h)]
    repeat' split
    all_goals rfl

/-- Closed instantiation of `C9_brick_short_circuit`: the brick package
is installed even though the environment has an SPL violation and the
one-shot flag set. -/
theorem C9_brick_short_circuit_witness :
    TryUpdateBinary brickEnv 0 true =
      ⟨Outcome.normal (brickResult brickEnv), true, false, false, []⟩ :=
  (C9_brick_short_circuit brickEnv 0 true (by decide)).1

theorem protocolStep_retry_mono (st : ProtocolState) (line : String)
    (h : st.retryUpdate = true) : (protocolStep st line).retryUpdate = true := by
  unfold protocolStep
  repeat' split
  all_goals first | rfl | exact h

theorem protocolStep_sets_retry (st : ProtocolState) (line : String)
    (h : lineCommand line = "retry_update") : (protocolStep st line).retryUpdate = true := by
  unfold protocolStep
  rw [h]
  rw [if_neg (by decide), if_neg (by decide), if_neg (by decide), if_neg (by decide),
    if_neg (by decide), if_neg (by decide), if_neg (by decide), if_pos rfl]

theorem foldl_protocol_retry (lines : List String) (st : ProtocolState)
    (h : st.retryUpdate = true ∨ ∃ l ∈ lines, lineCommand l = "retry_update") :
    (lines.foldl protocolStep st).retryUpdate = true := by
  induction lines generalizing st with
  | nil =>
    rcases h with h | ⟨l, hl, _⟩
    · exact h
    · exact absurd hl (List.not_mem_nil l)
  | cons l rest ih =>
    rw [List.foldl_cons]
    rcases h with h | ⟨l', hl', hcmd⟩
    · exact ih (protocolStep st l) (Or.inl (protocolStep_retry_mono st l h))
    · rcases List.mem_cons.mp hl' with rfl | hmem
      · exact ih (protocolStep st l') (Or.inl (protocolStep_sets_retry st l' hcmd))
      · exact ih (protocolStep st l) (Or.inr ⟨l', hmem, hcmd⟩)

set_option maxHeartbeats 2000000 in
/-- C2: whenever `TryUpdateBinary` actually forked the updater child
(i.e. reached the control-protocol read loop) and the child's control
stream contains a `retry_update` command line, the function returns
`INSTALL_RETRY` — the retry classification is checked before the child's
exit status is examined, so it wins even when the child exited with
status 0. -/
theorem C2_retry_propagation (env : TryEnv) (rc : Nat) (abFlag : Bool)
    (hfork : (TryUpdateBinary env rc abFlag).forked = true)
    (hstream : ∃ l ∈ env.childLines, lineCommand l = "retry_update") :
    (TryUpdateBinary env rc abFlag).outcome =
      Outcome.normal InstallResult.INSTALL_RETRY := by
  have hretry : (runProtocol env.childLines).retryUpdate = true :=
    foldl_protocol_retry env.childLines ⟨false, false, []⟩ (Or.inr hstream)
  revert hfork
  simp only [TryUpdateBinary]
  repeat' split
  all_goals intro hfork
  all_goals
    first
    | rfl
    | exact Bool.noConfusion hfork
    | exact absurd hretry (by assumption)

/-- Closed instantiation of `C2_retry_propagation`: the child emits
`retry_update` and then exits with status 0; the attempt is still
classified `INSTALL_RETRY`. -/
theorem C2_retry_propagation_witness :
    (TryUpdateBinary { abOkEnv with childLines := ["retry_update\n"] } 0 false).outcome =
      Outcome.normal InstallResult.INSTALL_RETRY :=
  C2_retry_propagation { abOkEnv with childLines := ["retry_update\n"] } 0 false (by decide)
    ⟨"retry_update\n", by decide, by decide⟩

theorem ab_success_sets_flag (env : TryEnv) (rc : Nat) (flag : Bool)
    (hab : packageIsAb env)
    (h : (TryUpdateBinary env rc flag).outcome =
      Outcome.normal InstallResult.INSTALL_SUCCESS) :
    (TryUpdateBinary env rc flag).abFlagAfter = true := by
  obtain ⟨hsome, hval⟩ := hab
  have hb : ¬ packageIsBrick env := fun hc => absurd (hval.symm.trans hc) (by decide)
  revert h
  delta TryUpdateBinary
  rw [if_neg hb]
  by_cases hspl : env.violatesSPL = true
  · rw [if_pos hspl]
    intro h
    exact InstallResult.noConfusion (Outcome.normal.inj h)
  rw [if_neg hspl]
  by_cases hflag : flag = true
  · rw [if_pos hflag]
    by_cases hask : env.askToAbReboot = true
    · rw [if_pos hask]
      intro h
      exact Outcome.noConfusion h
    · rw [if_neg hask]
      intro h
      exact InstallResult.noConfusion (Outcome.normal.inj h)
  rw [if_neg hflag]
  by_cases habt : packageIsAb env ∧ env.packageType ≠ PackageType.kFile
  · rw [if_pos habt]
    intro h
    exact Outcome.noConfusion h
  rw [if_neg habt]
  by_cases hmc : (packageIsAb env ∨ device_only_supports_ab env) ∧
      ¬ CheckPackageMetadata env.device (tryMetadata env) OtaType.AB = true
  · rw [if_pos hmc]
    intro h
    exact InstallResult.noConfusion (Outcome.normal.inj h)
  rw [if_neg hmc]
  by_cases hva : packageIsAb env ∧ env.deviceSupportsVirtualAb = true ∧
      env.logicalPartitionsMapped = true
  · rw [if_pos hva]
    intro h
    exact InstallResult.noConfusion (Outcome.normal.inj h)
  rw [if_neg hva]
  by_cases hpipe : ¬ env.pipeOk = true
  · rw [if_pos hpipe]
    intro h
    exact InstallResult.noConfusion (Outcome.normal.inj h)
  rw [if_neg hpipe]
  by_cases hsetup : ¬ (if packageIsAb env then env.setUpAbOk else env.setUpNonAbOk) = true
  · rw [if_pos hsetup]
    intro h
    exact InstallResult.noConfusion (Outcome.normal.inj h)
  rw [if_neg hsetup]
  by_cases hfk : ¬ env.forkOk = true
  · rw [if_pos hfk]
    intro h
    exact InstallResult.noConfusion (Outcome.normal.inj h)
  rw [if_neg hfk]
  by_cases hrt : (runProtocol env.childLines).retryUpdate = true
  · rw [if_pos hrt]
    intro h
    exact InstallResult.noConfusion (Outcome.normal.inj h)
  rw [if_neg hrt]
  repeat' split
  all_goals intro h
  all_goals first
  | rfl
  | exact Outcome.noConfusion h
  | exact InstallResult.noConfusion (Outcome.normal.inj h)
  | exact absurd (show packageIsAb env from ⟨hsome, hval⟩) (by assumption)

theorem ab_flag_blocks (env : TryEnv) (rc : Nat)
    (hnb : ¬ packageIsBrick env) :
    (TryUpdateBinary env rc true).forked = false ∧
    ((TryUpdateBinary env rc true).outcome = Outcome.normal InstallResult.INSTALL_ERROR ∨
      (TryUpdateBinary env rc true).outcome = Outcome.reboot) := by
  delta TryUpdateBinary
  rw [if_neg hnb]
  by_cases hspl : env.violatesSPL = true
  · rw [if_pos hspl]
    exact ⟨rfl, Or.inl rfl⟩
  rw [if_neg hspl, if_pos rfl]
  by_cases hask : env.askToAbReboot = true
  · rw [if_pos hask]
    exact ⟨rfl, Or.inr rfl⟩
  rw [if_neg hask]
  exact ⟨rfl, Or.inl rfl⟩

/-- C1: once `TryUpdateBinary` has returned `INSTALL_SUCCESS` for an
A/B package starting from a clear `ab_package_installed` flag, the flag
is set, and a subsequent call with an A/B package and that flag value
does not fork the updater child and either returns `INSTALL_ERROR` or
(when the user accepts the prompt) reboots into the applied update. -/
theorem C1_one_shot_ab_guard (env1 env2 : TryEnv) (rc1 rc2 : Nat)
    (h1 : packageIsAb env1) (h2 : packageIsAb env2)
    (hs : (TryUpdateBinary env1 rc1 false).outcome =
      Outcome.normal InstallResult.INSTALL_SUCCESS) :
    (TryUpdateBinary env1 rc1 false).abFlagAfter = true ∧
    (TryUpdateBinary env2 rc2 (TryUpdateBinary env1 rc1 false).abFlagAfter).forked = false ∧
    ((TryUpdateBinary env2 rc2 (TryUpdateBinary env1 rc1 false).abFlagAfter).outcome =
        Outcome.normal InstallResult.INSTALL_ERROR ∨
      (TryUpdateBinary env2 rc2 (TryUpdateBinary env1 rc1 false).abFlagAfter).outcome =
        Outcome.reboot) := by
  have hf : (TryUpdateBinary env1 rc1 false).abFlagAfter = true :=
    ab_success_sets_flag env1 rc1 false h1 hs
  have hnb2 : ¬ packageIsBrick env2 := fun hb => absurd (h2.2.symm.trans hb) (by decide)
  rw [hf]
  exact ⟨rfl, (ab_flag_blocks env2 rc2 hnb2).1, (ab_flag_blocks env2 rc2 hnb2).2⟩

/-- Closed instantiation of `C1_one_shot_ab_guard`: a concrete A/B
install succeeds on the first call; the identical second call is
refused with `INSTALL_ERROR` without forking. -/
theorem C1_one_shot_ab_guard_witness :
    (TryUpdateBinary abOkEnv 0 false).abFlagAfter = true ∧
    (TryUpdateBinary abOkEnv 0 (TryUpdateBinary abOkEnv 0 false).abFlagAfter).forked = false ∧
    ((TryUpdateBinary abOkEnv 0 (TryUpdateBinary abOkEnv 0 false).abFlagAfter).outcome =
        Outcome.normal InstallResult.INSTALL_ERROR ∨
      (TryUpdateBinary abOkEnv 0 (TryUpdateBinary abOkEnv 0 false).abFlagAfter).outcome =
        Outcome.reboot) :=
  C1_one_shot_ab_guard abOkEnv abOkEnv 0 0 (by decide) (by decide) (by decide)

theorem undeclaredDowngrade_of_no_flag (env : DeviceEnv) (metadata : Metadata)
    (hts : get_value metadata "post-timestamp" = "" ∨
      parseInt64 (get_value metadata "post-timestamp") = none ∨
      (parseInt64 (get_value metadata "post-timestamp")).getD 0 < env.buildTimestamp)
    (hod : get_value metadata "ota-downgrade" ≠ "yes") :
    undeclaredDowngrade env metadata = true := by
  unfold undeclaredDowngrade
  rw [if_pos hts, if_pos hod]

theorem undeclaredDowngrade_of_no_prebuild (env : DeviceEnv) (metadata : Metadata)
    (hts : get_value metadata "post-timestamp" = "" ∨
      parseInt64 (get_value metadata "post-timestamp") = none ∨
      (parseInt64 (get_value metadata "post-timestamp")).getD 0 < env.buildTimestamp)
    (hod : get_value metadata "ota-downgrade" = "yes")
    (hfp : get_value metadata "pre-build" = "") :
    undeclaredDowngrade env metadata = true := by
  unfold undeclaredDowngrade
  rw [if_pos hts, if_neg (fun hne => hne hod), if_pos hfp]

theorem checkAb_false_of_undeclared (env : DeviceEnv) (metadata : Metadata)
    (hud : undeclaredDowngrade env metadata = true)
    (hui : env.textVisible = false) :
    CheckAbSpecificMetadata env metadata = false := by
  unfold CheckAbSpecificMetadata
  by_cases h1 : get_value metadata "pre-build-incremental" ≠ "" ∧
      get_value metadata "pre-build-incremental" ≠ env.devicePreBuild
  · rw [if_pos h1]
  rw [if_neg h1]
  by_cases h2 : get_value metadata "pre-build" ≠ "" ∧
      ¬ isInStringList env.deviceFingerprint (get_value metadata "pre-build") "|" = true
  · rw [if_pos h2]
  rw [if_neg h2]
  by_cases h3 : strTokenize "/" (get_value metadata "post-build") ≠ [] ∧
      env.buildType = "user" ∧
      env.buildTags ≠ (strTokenize "/" (get_value metadata "post-build")).getLastD ""
  · rw [if_pos h3]
  rw [if_neg h3, if_pos ⟨hud, fun hvc => by rw [hui] at hvc; exact Bool.noConfusion hvc.1⟩]

/-- C5: in a non-interactive context (text UI not visible),
`CheckAbSpecificMetadata` rejects every package whose `post-timestamp`
is absent, unparseable or older than the device's build timestamp when
the metadata lacks `ota-downgrade=yes`; and with `ota-downgrade=yes`
but no `pre-build` fingerprint it rejects likewise.  (The check never
consults the package signature, so the rejection is independent of
signature validity.) -/
theorem C5_downgrade_rejection (env : DeviceEnv) (metadata : Metadata)
    (hts : get_value metadata "post-timestamp" = "" ∨
      parseInt64 (get_value metadata "post-timestamp") = none ∨
      (parseInt64 (get_value metadata "post-timestamp")).getD 0 < env.buildTimestamp)
    (hui : env.textVisible = false) :
    (get_value metadata "ota-downgrade" ≠ "yes" →
      CheckAbSpecificMetadata env metadata = false) ∧
    (get_value metadata "ota-downgrade" = "yes" → get_value metadata "pre-build" = "" →
      CheckAbSpecificMetadata env metadata = false) := by
  constructor
  · intro hod
    exact checkAb_false_of_undeclared env metadata
      (undeclaredDowngrade_of_no_flag env metadata hts hod) hui
  · intro hod hfp
    exact checkAb_false_of_undeclared env metadata
      (undeclaredDowngrade_of_no_prebuild env metadata hts hod hfp) hui

/-- Closed instantiation of `C5_downgrade_rejection`: a stale
`post-timestamp` with no downgrade declaration is rejected, and an
absent `post-timestamp` with `ota-downgrade=yes` but no `pre-build` is
rejected. -/
theorem C5_downgrade_rejection_witness :
    CheckAbSpecificMetadata sampleDevice [("post-timestamp", "0")] = false ∧
    CheckAbSpecificMetadata sampleDevice [("ota-downgrade", "yes")] = false :=
  ⟨(C5_downgrade_rejection sampleDevice [("post-timestamp", "0")]
      (Or.inr (Or.inr (by decide))) rfl).1 (by decide),
   (C5_downgrade_rejection sampleDevice [("ota-downgrade", "yes")]
      (Or.inl rfl) rfl).2 rfl rfl⟩

theorem partitionLoopEvents_mem (env : DiskEnv) (mm : Int) (t : TableType)
    (parts : List SgPart) (e : ScanEvent) (he : e ∈ partitionLoopEvents env mm t parts) :
    ∃ mj mn, e = ScanEvent.volumeCreated mj mn := by
  unfold partitionLoopEvents at he
  rw [List.mem_flatten] at he
  obtain ⟨l, hl, hel⟩ := he
  rw [List.mem_map] at hl
  obtain ⟨p, _, rfl⟩ := hl
  revert hel
  unfold partitionEventsOf
  repeat' split
  all_goals intro hel
  all_goals first
  | exact absurd hel (List.not_mem_nil e)
  | (rw [List.mem_singleton] at hel; exact ⟨_, _, hel⟩)

theorem partitionLoopEvents_unknown (env : DiskEnv) (mm : Int) (parts : List SgPart) :
    partitionLoopEvents env mm TableType.unknown parts = [] := by
  unfold partitionLoopEvents
  induction parts with
  | nil => rfl
  | cons p rest ih =>
    rw [List.map_cons, List.flatten_cons, ih, List.append_nil]
    unfold partitionEventsOf
    split <;> rfl

theorem wholeDiskFallback_no_scanned (env : DiskEnv) (t : TableType) (parts : List SgPart) :
    ScanEvent.diskScanned ∉ wholeDiskFallback env t parts := by
  unfold wholeDiskFallback
  split
  · intro hm
    rcases List.mem_cons.mp hm with h | h
    · exact ScanEvent.noConfusion h
    · revert h
      split
      · intro h
        rw [List.mem_singleton] at h
        exact ScanEvent.noConfusion h
      · intro h
        exact absurd h (List.not_mem_nil _)
  · exact List.not_mem_nil _

theorem wholeDiskFallback_probe_iff (env : DiskEnv) (t : TableType) (parts : List SgPart) :
    ScanEvent.probeWholeDisk ∈ wholeDiskFallback env t parts ↔
      (t = TableType.unknown ∨ parts = []) := by
  unfold wholeDiskFallback
  split
  · rename_i hcond
    constructor
    · intro _
      rcases hcond with h | h
      · exact Or.inl h
      · exact Or.inr (List.length_eq_zero.mp (Nat.eq_zero_of_not_pos h))
    · intro _
      exact List.mem_cons_self _ _
  · rename_i hcond
    constructor
    · intro hm
      exact absurd hm (List.not_mem_nil _)
    · intro hc
      exfalso
      apply hcond
      rcases hc with h | h
      · exact Or.inl h
      · exact Or.inr (by rw [h]; decide)

theorem scanned_not_mem_pre (env : DiskEnv) (t : TableType) (parts : List SgPart) :
    ScanEvent.diskScanned ∉
      ScanEvent.volumesDestroyed ::
        (partitionLoopEvents env (toInt8 env.getMaxMinorsRet) t parts ++
          wholeDiskFallback env t parts) := by
  intro hm
  rcases List.mem_cons.mp hm with h | h
  · exact ScanEvent.noConfusion h
  rcases List.mem_append.mp h with h | h
  · obtain ⟨mj, mn, he⟩ := partitionLoopEvents_mem env _ t parts _ h
    exact ScanEvent.noConfusion he
  · exact wholeDiskFallback_no_scanned env t parts h

/-- C3 counterexample: for a disk whose major number is not recognized
by `getMaxMinors()` (which then returns `-ENOTSUP`),
`Disk::readPartitions` returns without emitting any "disk scanned"
notification — refuting the claim that the notification is emitted
exactly once on every failure path, in particular on the
unrecognized-major path (and likewise the skip-first-change early
return at Disk.cpp lines 285-289 emits none). -/
theorem C3_scanned_counterexample :
    (readPartitions c3Env).events.count ScanEvent.diskScanned = 0 := by
  decide

/-- C3 (amended): on every run of `Disk::readPartitions` that passes
the two early returns (recognized major number, no pending
skip-first-change), the "disk scanned" notification is emitted exactly
once and is the last notification before returning — both when the
partition-table read fails and on every completed scan.  The
unrecognized-major and skip-first-change early returns emit no
notification. -/
theorem C3_scanned_amended (env : DiskEnv)
    (h1 : ¬ toInt8 env.getMaxMinorsRet < 0) (h2 : env.skipChange = false) :
    (readPartitions env).events.count ScanEvent.diskScanned = 1 ∧
    (readPartitions env).events.getLast? = some ScanEvent.diskScanned := by
  unfold readPartitions
  rw [if_neg h1, if_neg (fun hsk => Bool.noConfusion (h2.symm.trans hsk))]
  cases hsg : env.sgdisk with
  | failed res =>
    dsimp only
    exact ⟨rfl, rfl⟩
  | parsed t parts =>
    dsimp only
    constructor
    · rw [← List.cons_append, List.count_append,
        List.count_eq_zero.mpr (scanned_not_mem_pre env t parts)]
      rfl
    · rw [← List.cons_append, List.getLast?_concat]

/-- Closed instantiation of `C3_scanned_amended` on the sgdisk-failure
path. -/
theorem C3_scanned_amended_witness :
    (readPartitions sgdiskFailEnv).events.count ScanEvent.diskScanned = 1 ∧
    (readPartitions sgdiskFailEnv).events.getLast? = some ScanEvent.diskScanned :=
  C3_scanned_amended sgdiskFailEnv (by decide) rfl

/-- C4 counterexample: a disk with a recognized MBR table whose single
partition entry has type byte 0x05 (extended partition — not a
filesystem-bearing type) matches zero entries, yet `readPartitions`
performs no whole-disk fallback probe and creates no volume, even
though blind detection would succeed (`readMetadataUntrustedOk` is true
in `c4Env`) — refuting the claim that zero *matched* entries trigger
the fallback; the code only checks that zero entries *exist*. -/
theorem C4_fallback_counterexample :
    (readPartitions c4Env).events =
      [ScanEvent.volumesDestroyed, ScanEvent.diskScanned] ∧
    c4Env.readMetadataUntrustedOk = true := by
  exact ⟨by decide, rfl⟩

/-- C4 (amended): on a completed scan, the whole-disk fallback probe is
attempted exactly when the partition table type is Unknown or the
partition entry list is empty (`foundParts` false) — not when entries
exist but none matched — and, when attempted, the whole-disk volume is
created exactly when blind filesystem-metadata detection succeeds. -/
theorem C4_fallback_amended (env : DiskEnv) (t : TableType) (parts : List SgPart)
    (h1 : ¬ toInt8 env.getMaxMinorsRet < 0) (h2 : env.skipChange = false)
    (h3 : env.sgdisk = SgdiskResult.parsed t parts) :
    (ScanEvent.probeWholeDisk ∈ (readPartitions env).events ↔
      (t = TableType.unknown ∨ parts = [])) ∧
    ((t = TableType.unknown ∨ parts = []) →
      (ScanEvent.volumeCreated env.deviceMajor env.deviceMinor ∈ (readPartitions env).events ↔
        env.readMetadataUntrustedOk = true)) := by
  unfold readPartitions
  rw [if_neg h1, if_neg (fun hsk => Bool.noConfusion (h2.symm.trans hsk)), h3]
  dsimp only
  constructor
  · rw [List.mem_cons, List.mem_append, List.mem_append, List.mem_singleton]
    constructor
    · rintro (h | ((h | h) | h))
      · exact ScanEvent.noConfusion h
      · obtain ⟨mj, mn, he⟩ := partitionLoopEvents_mem env _ t parts _ h
        exact ScanEvent.noConfusion he
      · exact (wholeDiskFallback_probe_iff env t parts).mp h
      · exact ScanEvent.noConfusion h
    · intro hc
      exact Or.inr (Or.inl (Or.inr ((wholeDiskFallback_probe_iff env t parts).mpr hc)))
  · intro hc
    have hloop : partitionLoopEvents env (toInt8 env.getMaxMinorsRet) t parts = [] := by
      rcases hc with h | h
      · rw [h]
        exact partitionLoopEvents_unknown env _ parts
      · rw [h]
        rfl
    have hcond : t = TableType.unknown ∨ ¬ parts.length > 0 := by
      rcases hc with h | h
      · exact Or.inl h
      · exact Or.inr (by rw [h]; decide)
    rw [hloop]
    unfold wholeDiskFallback
    rw [if_pos hcond]
    cases hro : env.readMetadataUntrustedOk with
    | false => simp
    | true => simp

/-- Closed instantiation of `C4_fallback_amended` on an Unknown-table
disk whose blind detection succeeds. -/
theorem C4_fallback_amended_witness :
    (ScanEvent.probeWholeDisk ∈ (readPartitions c3scanOkEnv).events ↔
      (TableType.unknown = TableType.unknown ∨ ([] : List SgPart) = [])) ∧
    ((TableType.unknown = TableType.unknown ∨ ([] : List SgPart) = []) →
      (ScanEvent.volumeCreated c3scanOkEnv.deviceMajor c3scanOkEnv.deviceMinor ∈
          (readPartitions c3scanOkEnv).events ↔
        c3scanOkEnv.readMetadataUntrustedOk = true)) :=
  C4_fallback_amended c3scanOkEnv TableType.unknown [] (by decide) rfl rfl

theorem splitAnyChar_break (d : List Char) (as bs : List Char) (c : Char)
    (hc : d.contains c = true) (h : ∀ x ∈ as, d.contains x = false) :
    splitAnyChar d (as ++ c :: bs) = as :: splitAnyChar d bs := by
  induction as with
  | nil =>
    rw [List.nil_append]
    conv_lhs => rw [splitAnyChar]
    cases hsp : splitAnyChar d bs with
    | nil => rfl
    | cons hh tt =>
      dsimp only
      rw [if_pos hc]
  | cons a as' ih =>
    have ha := h a (List.mem_cons_self a as')
    have h' : ∀ x ∈ as', d.contains x = false := fun x hx => h x (List.mem_cons_of_mem a hx)
    rw [List.cons_append]
    conv_lhs => rw [splitAnyChar]
    rw [ih h']
    dsimp only
    rw [if_neg (fun hcc => Bool.noConfusion (ha.symm.trans hcc))]

theorem strSplitAny_newline_break (a b : String) (ha : ∀ c ∈ a.data, c ≠ '\n') :
    strSplitAny "\n" (a ++ ("\n" ++ b)) = a :: strSplitAny "\n" b := by
  unfold strSplitAny
  have hdata : (a ++ ("\n" ++ b)).data = a.data ++ '\n' :: b.data := by
    simp [String.data_append]
  rw [hdata,
    splitAnyChar_break "\n".data a.data b.data '\n' (by decide)
      (fun x hx => by simpa using ha x hx),
    List.map_cons]

theorem installLogContent_lines (env : InstallEnv) (r : InstallResult) (lb : List String)
    (hid : ∀ c ∈ env.packageId.data, c ≠ '\n') :
    ∃ rest, strSplitAny "\n" (installLogContent env r lb) =
      env.packageId :: (if r = InstallResult.INSTALL_SUCCESS then "1" else "0") :: rest := by
  have hform : installLogContent env r lb =
      env.packageId ++ ("\n" ++
        ((if r = InstallResult.INSTALL_SUCCESS then "1" else "0") ++ ("\n" ++
          ("time_total: " ++ toString env.timeTotal ++ "\n" ++
            ("retry: " ++ toString env.retryCount ++ "\n" ++
              (joinNL (lb ++ uncryptLogLines env ++
                temperatureLogLines env.startTemperature env.endTemperature
                  (max env.endTemperature env.maxTempObserved)) ++ "\n")))))) := by
    apply String.ext
    simp [installLogContent, installLogHeader, joinNL, String.data_append, List.append_assoc]
  have hflag : ∀ c ∈ (if r = InstallResult.INSTALL_SUCCESS then "1" else "0").data,
      c ≠ '\n' := by
    by_cases hr : r = InstallResult.INSTALL_SUCCESS
    · rw [if_pos hr]
      decide
    · rw [if_neg hr]
      decide
  rw [hform, strSplitAny_newline_break _ _ hid, strSplitAny_newline_break _ _ hflag]
  exact ⟨_, rfl⟩

/-- C7 counterexample: in `c7Env` the update itself succeeds, the
caller requested a cache wipe, and the cache wipe fails, so
`InstallPackage` returns `INSTALL_ERROR` while the persisted install
log — written before the cache wipe — carries success flag "1" on its
second line: the flag does not match the returned result. -/
theorem C7_log_flag_counterexample :
    (InstallPackage c7Env false).result = some InstallResult.INSTALL_ERROR ∧
    (strSplitAny "\n" ((InstallPackage c7Env false).logContent.getD "")).getD 1 "" = "1" := by
  exact ⟨by decide, by decide⟩

/-- C7 (amended): whenever `InstallPackage` returns (i.e. the updater
path did not reboot or abort), the persisted install-log content begins
with the package id as its first line (provided the id contains no
newline) and a success flag as its second line that is "1" exactly when
the install result *at log-writing time* is `INSTALL_SUCCESS`; the
value finally returned equals that logged result except that a
successful install is downgraded to `INSTALL_ERROR` — after the log was
written — when a requested cache wipe fails. -/
theorem C7_install_log_header (env : InstallEnv) (abFlag : Bool) (r0 : InstallResult)
    (content : String)
    (hid : ∀ c ∈ env.packageId.data, c ≠ '\n')
    (hr : (InstallPackage env abFlag).resultLogged = some r0)
    (hc : (InstallPackage env abFlag).logContent = some content) :
    (∃ rest, strSplitAny "\n" content =
      env.packageId :: (if r0 = InstallResult.INSTALL_SUCCESS then "1" else "0") :: rest) ∧
    ((InstallPackage env abFlag).result = some r0 ∨
      (r0 = InstallResult.INSTALL_SUCCESS ∧
        (InstallPackage env abFlag).result = some InstallResult.INSTALL_ERROR)) := by
  unfold InstallPackage at hr hc ⊢
  cases hcore : installCore env abFlag with
  | none =>
    rw [hcore] at hr
    exact Option.noConfusion hr
  | some rwl =>
    obtain ⟨result, wc, lb, flagAfter⟩ := rwl
    rw [hcore] at hr hc
    dsimp only at hr hc ⊢
    have hres : r0 = result := (Option.some.inj hr).symm
    have hcontent : content = installLogContent env result lb := (Option.some.inj hc).symm
    subst hres
    subst hcontent
    constructor
    · exact installLogContent_lines env r0 lb hid
    · unfold installFinalResult
      by_cases hdw : r0 = InstallResult.INSTALL_SUCCESS ∧
          (env.shouldWipeCache ∨ wc = true) ∧ ¬ env.wipeCacheOk = true
      · rw [if_pos hdw]
        exact Or.inr ⟨hdw.1, rfl⟩
      · rw [if_neg hdw]
        exact Or.inl rfl

/-- Closed instantiation of `C7_install_log_header` at `c7Env`. -/
theorem C7_install_log_header_witness :
    (∃ rest, strSplitAny "\n" ((InstallPackage c7Env false).logContent.getD "") =
      c7Env.packageId ::
        (if InstallResult.INSTALL_SUCCESS = InstallResult.INSTALL_SUCCESS then "1" else "0") ::
        rest) ∧
    ((InstallPackage c7Env false).result = some InstallResult.INSTALL_SUCCESS ∨
      (InstallResult.INSTALL_SUCCESS = InstallResult.INSTALL_SUCCESS ∧
        (InstallPackage c7Env false).result = some InstallResult.INSTALL_ERROR)) :=
  C7_install_log_header c7Env false InstallResult.INSTALL_SUCCESS
    ((InstallPackage c7Env false).logContent.getD "") (by decide) (by decide) (by decide)

end Recovery
